import Mathlib

/-!
HTTPCommands.hh: construction of HTTP request objects.

A shallow embedding of the classes declared in `src/HTTPCommands.hh`
(`HTTPRequest`, `HTTPUpload`, `HTTPDownload`, `HTTPHead`): their fields with
the in-class default initialisers, their inline constructors and their inline
accessors.

Modelling conventions.

* `std::string` is `String`; `operator+` on strings is `++`.
* `std::map<std::string, std::string>` is an association list; a
  default-constructed map is `[]`.
* A nullable pointer `const T *` is `Option T`, with `nullptr` as `none`.
* `TokenFile` (declared in `TokenFile.hh`) and `XrdSysError` (only forward
  declared) are type parameters: the header stores a pointer or a reference to
  them and never looks inside.
* `HTTPRequest::parseProtocol(url, protocol)` is declared in the header but
  defined elsewhere. The constructors take it as a parameter `pp`, a function
  from the URL and the current content of the output argument to the returned
  flag and the new content of the output argument.
* A derived class is a structure extending the base one; a base-class
  constructor runs first and the body of the derived constructor afterwards.
-/

namespace XrootdS3Http

/-- The C `struct timespec`: seconds and nanoseconds. -/
structure Timespec where
  tv_sec : Int
  tv_nsec : Int
  deriving DecidableEq, Repr

/-- Nested struct `HTTPRequest::Payload`: a pointer to caller-owned data plus the count of
bytes already handed over. -/
structure Payload where
  data : Option String
  sentSoFar : Nat
  deriving DecidableEq, Repr

/-- The typedef `HTTPRequest::AttributeValueMap`. -/
abbrev AttributeValueMap := List (String × String)

/-- The signature of `HTTPRequest::parseProtocol`: the URL and the incoming
content of the `protocol` output argument give the returned flag and the
outgoing content of `protocol`. -/
abbrev ProtocolParser := String → String → Bool × String

/-- Data members of `class HTTPRequest`, in declaration order, each with its
in-class default initialiser. `signatureTime` has no initialiser in the header
and is not written by any constructor: `none` stands for that indeterminate
state. -/
structure HTTPRequest (TokenFile XrdSysError : Type) where
  query_parameters : AttributeValueMap := []
  headers : AttributeValueMap := []
  hostUrl : String
  protocol : String := ""
  requiresSignature : Bool := false
  signatureTime : Option Timespec := none
  errorMessage : String := ""
  errorCode : String := ""
  resultString : String := ""
  responseCode : Nat := 0
  expectedResponseCode : Nat := 200
  includeResponseHeader : Bool := false
  httpVerb : String := "POST"
  callback_payload : Option Payload := none
  m_log : XrdSysError
  m_token : Option TokenFile

/-- Data members of `class HTTPUpload : public HTTPRequest`. -/
structure HTTPUpload (TokenFile XrdSysError : Type) extends
    HTTPRequest TokenFile XrdSysError where
  object : String
  path : String := ""

/-- Data members of `class HTTPDownload : public HTTPRequest`. -/
structure HTTPDownload (TokenFile XrdSysError : Type) extends
    HTTPRequest TokenFile XrdSysError where
  object : String

/-- Data members of `class HTTPHead : public HTTPRequest`. -/
structure HTTPHead (TokenFile XrdSysError : Type) extends
    HTTPRequest TokenFile XrdSysError where
  object : String

section Constructors

variable {TokenFile XrdSysError : Type}

/-- The member-initialiser list of `HTTPRequest::HTTPRequest`:
`hostUrl(hostUrl), m_log(log), m_token(token)`, every other member taking its
default. This is the object as the constructor body finds it. -/
def HTTPRequest.init (hostUrl : String) (log : XrdSysError)
    (token : Option TokenFile) : HTTPRequest TokenFile XrdSysError :=
  { hostUrl := hostUrl, m_log := log, m_token := token }

/-- Constructor `HTTPRequest::HTTPRequest(hostUrl, log, token)`. The body calls
`parseProtocol(hostUrl, protocol)` on the constructor argument and the
`protocol` member, and records an error when the call returns `false`. -/
def HTTPRequest.new (pp : ProtocolParser) (hostUrl : String) (log : XrdSysError)
    (token : Option TokenFile) : HTTPRequest TokenFile XrdSysError :=
  let self : HTTPRequest TokenFile XrdSysError := HTTPRequest.init hostUrl log token
  let parsed := pp hostUrl self.protocol
  let self := { self with protocol := parsed.2 }
  if !parsed.1 then
    { self with
      errorCode := "E_INVALID_HOST_URL"
      errorMessage := "Failed to parse protocol from host/service URL." }
  else
    self

/-- Accessor `HTTPRequest::getAccessKey`: `return nullptr`. -/
def HTTPRequest.getAccessKey (_self : HTTPRequest TokenFile XrdSysError) :
    Option String :=
  none

/-- Accessor `HTTPRequest::getSecretKey`: `return nullptr`. -/
def HTTPRequest.getSecretKey (_self : HTTPRequest TokenFile XrdSysError) :
    Option String :=
  none

/-- Accessor `HTTPRequest::getResponseCode`. -/
def HTTPRequest.getResponseCode (self : HTTPRequest TokenFile XrdSysError) : Nat :=
  self.responseCode

/-- Accessor `HTTPRequest::getErrorCode`. -/
def HTTPRequest.getErrorCode (self : HTTPRequest TokenFile XrdSysError) : String :=
  self.errorCode

/-- Accessor `HTTPRequest::getErrorMessage`. -/
def HTTPRequest.getErrorMessage (self : HTTPRequest TokenFile XrdSysError) : String :=
  self.errorMessage

/-- Accessor `HTTPRequest::getResultString`. -/
def HTTPRequest.getResultString (self : HTTPRequest TokenFile XrdSysError) : String :=
  self.resultString

/-- Constructor `HTTPUpload::HTTPUpload(h, o, log, token)`: base constructor on `h`, then
`object(o)`, then the body `hostUrl = hostUrl + "/" + object`. -/
def HTTPUpload.new (pp : ProtocolParser) (h o : String) (log : XrdSysError)
    (token : Option TokenFile) : HTTPUpload TokenFile XrdSysError :=
  let base : HTTPRequest TokenFile XrdSysError := HTTPRequest.new pp h log token
  let self : HTTPUpload TokenFile XrdSysError := { base with object := o }
  { self with hostUrl := self.hostUrl ++ "/" ++ self.object }

/-- Constructor `HTTPDownload::HTTPDownload(h, o, log, token)`: base constructor on `h`,
then `object(o)`, then the body `hostUrl = hostUrl + "/" + object`. -/
def HTTPDownload.new (pp : ProtocolParser) (h o : String) (log : XrdSysError)
    (token : Option TokenFile) : HTTPDownload TokenFile XrdSysError :=
  let base : HTTPRequest TokenFile XrdSysError := HTTPRequest.new pp h log token
  let self : HTTPDownload TokenFile XrdSysError := { base with object := o }
  { self with hostUrl := self.hostUrl ++ "/" ++ self.object }

/-- Constructor `HTTPHead::HTTPHead(h, o, log, token)`: base constructor on `h`, then
`object(o)`, then the body `hostUrl = hostUrl + "/" + object`. -/
def HTTPHead.new (pp : ProtocolParser) (h o : String) (log : XrdSysError)
    (token : Option TokenFile) : HTTPHead TokenFile XrdSysError :=
  let base : HTTPRequest TokenFile XrdSysError := HTTPRequest.new pp h log token
  let self : HTTPHead TokenFile XrdSysError := { base with object := o }
  { self with hostUrl := self.hostUrl ++ "/" ++ self.object }

/-- The accessor `getAccessKey` as seen on an `HTTPUpload`: the class declares
no override, so the call reaches `HTTPRequest::getAccessKey`. -/
def HTTPUpload.getAccessKey (self : HTTPUpload TokenFile XrdSysError) : Option String :=
  self.toHTTPRequest.getAccessKey

/-- The accessor `getSecretKey` as seen on an `HTTPUpload` (no override). -/
def HTTPUpload.getSecretKey (self : HTTPUpload TokenFile XrdSysError) : Option String :=
  self.toHTTPRequest.getSecretKey

/-- The accessor `getAccessKey` as seen on an `HTTPDownload` (no override). -/
def HTTPDownload.getAccessKey (self : HTTPDownload TokenFile XrdSysError) : Option String :=
  self.toHTTPRequest.getAccessKey

/-- The accessor `getSecretKey` as seen on an `HTTPDownload` (no override). -/
def HTTPDownload.getSecretKey (self : HTTPDownload TokenFile XrdSysError) : Option String :=
  self.toHTTPRequest.getSecretKey

/-- The accessor `getAccessKey` as seen on an `HTTPHead` (no override). -/
def HTTPHead.getAccessKey (self : HTTPHead TokenFile XrdSysError) : Option String :=
  self.toHTTPRequest.getAccessKey

/-- The accessor `getSecretKey` as seen on an `HTTPHead` (no override). -/
def HTTPHead.getSecretKey (self : HTTPHead TokenFile XrdSysError) : Option String :=
  self.toHTTPRequest.getSecretKey

end Constructors

/-! ## A concrete protocol parser -/

/-- Modelled from the spec: the scheme delimiter test used by `parseProtocol`
below, whose body is not in the header. Does the character list start with
`://`? -/
def startsWithSchemeDelimiter : List Char → Bool
  | ':' :: '/' :: '/' :: _ => true
  | _ => false

/-- Modelled from the spec: the scheme extraction used by `parseProtocol`
below, whose body is not in the header. The characters standing before the
first `://`, or `none` when the list holds no `://`. -/
def schemeBeforeDelimiter : List Char → Option (List Char)
  | [] => none
  | c :: cs =>
    if startsWithSchemeDelimiter (c :: cs) then some []
    else (schemeBeforeDelimiter cs).map (c :: ·)

/-- Modelled from the spec: the body of `HTTPRequest::parseProtocol`, which the
header only declares. The spec describes it as extracting the scheme of the
host URL, failing when the scheme delimiter is missing (so also on the empty
string) and requiring a non-empty protocol after parsing. On failure the output
argument is left as it was. The spec names no list of supported schemes, so
none is enforced. -/
def parseProtocol : ProtocolParser := fun url protocol =>
  match schemeBeforeDelimiter url.data with
  | none => (false, protocol)
  | some [] => (false, protocol)
  | some (c :: cs) => (true, String.mk (c :: cs))


/-! ## Measuring the join between host URL and object key -/

/-- Count of `/` characters at the front of a character list. -/
def leadingSlashes (cs : List Char) : Nat :=
  (cs.takeWhile (· == '/')).length

/-- Count of `/` characters at the end of a character list. -/
def trailingSlashes (cs : List Char) : Nat :=
  leadingSlashes cs.reverse

/-- Length of the run of consecutive `/` characters of `url` that surrounds
position `n`: those ending right before `n` plus those starting at `n`. With
`n` the length of the host URL this is the separator between host part and
object key as it appears in the assembled URL; "exactly one separator" reads
`slashesAtJoin url n = 1`. -/
def slashesAtJoin (url : String) (n : Nat) : Nat :=
  trailingSlashes (url.data.take n) + leadingSlashes (url.data.drop n)

/-! ## Helper lemmas -/

/-- A failed parse makes the constructor body store the two error strings. -/
theorem request_new_of_parse_false {TokenFile XrdSysError : Type}
    (pp : ProtocolParser) (h : String) (log : XrdSysError) (token : Option TokenFile)
    (hp : (pp h "").1 = false) :
    HTTPRequest.new pp h log token =
      { HTTPRequest.init h log token with
        protocol := (pp h "").2
        errorCode := "E_INVALID_HOST_URL"
        errorMessage := "Failed to parse protocol from host/service URL." } := by
  simp [HTTPRequest.new, HTTPRequest.init, hp]

/-- A successful parse makes the constructor body change `protocol` only. -/
theorem request_new_of_parse_true {TokenFile XrdSysError : Type}
    (pp : ProtocolParser) (h : String) (log : XrdSysError) (token : Option TokenFile)
    (hp : (pp h "").1 = true) :
    HTTPRequest.new pp h log token =
      { HTTPRequest.init h log token with protocol := (pp h "").2 } := by
  simp [HTTPRequest.new, HTTPRequest.init, hp]

/-- The base constructor stores the host URL as given, whatever the parser
answers. -/
theorem request_new_hostUrl {TokenFile XrdSysError : Type}
    (pp : ProtocolParser) (h : String) (log : XrdSysError) (token : Option TokenFile) :
    (HTTPRequest.new pp h log token).hostUrl = h := by
  cases hp : (pp h "").1
  · rw [request_new_of_parse_false pp h log token hp]; rfl
  · rw [request_new_of_parse_true pp h log token hp]; rfl

/-- The upload constructor appends `"/"` and the object key to the stored host
URL. -/
theorem upload_new_hostUrl {TokenFile XrdSysError : Type}
    (pp : ProtocolParser) (h o : String) (log : XrdSysError) (token : Option TokenFile) :
    (HTTPUpload.new pp h o log token).hostUrl = h ++ "/" ++ o := by
  simp [HTTPUpload.new, request_new_hostUrl]

/-- The download constructor appends `"/"` and the object key to the stored
host URL. -/
theorem download_new_hostUrl {TokenFile XrdSysError : Type}
    (pp : ProtocolParser) (h o : String) (log : XrdSysError) (token : Option TokenFile) :
    (HTTPDownload.new pp h o log token).hostUrl = h ++ "/" ++ o := by
  simp [HTTPDownload.new, request_new_hostUrl]

/-- The head constructor appends `"/"` and the object key to the stored host
URL. -/
theorem head_new_hostUrl {TokenFile XrdSysError : Type}
    (pp : ProtocolParser) (h o : String) (log : XrdSysError) (token : Option TokenFile) :
    (HTTPHead.new pp h o log token).hostUrl = h ++ "/" ++ o := by
  simp [HTTPHead.new, request_new_hostUrl]

/-- The upload constructor leaves every base member other than `hostUrl` as the
base constructor set it. -/
theorem upload_new_base {TokenFile XrdSysError : Type}
    (pp : ProtocolParser) (h o : String) (log : XrdSysError) (token : Option TokenFile) :
    (HTTPUpload.new pp h o log token).toHTTPRequest =
      { HTTPRequest.new pp h log token with hostUrl := h ++ "/" ++ o } := by
  simp [HTTPUpload.new, request_new_hostUrl]

/-- The download constructor leaves every base member other than `hostUrl` as
the base constructor set it. -/
theorem download_new_base {TokenFile XrdSysError : Type}
    (pp : ProtocolParser) (h o : String) (log : XrdSysError) (token : Option TokenFile) :
    (HTTPDownload.new pp h o log token).toHTTPRequest =
      { HTTPRequest.new pp h log token with hostUrl := h ++ "/" ++ o } := by
  simp [HTTPDownload.new, request_new_hostUrl]

/-- The head constructor leaves every base member other than `hostUrl` as the
base constructor set it. -/
theorem head_new_base {TokenFile XrdSysError : Type}
    (pp : ProtocolParser) (h o : String) (log : XrdSysError) (token : Option TokenFile) :
    (HTTPHead.new pp h o log token).toHTTPRequest =
      { HTTPRequest.new pp h log token with hostUrl := h ++ "/" ++ o } := by
  simp [HTTPHead.new, request_new_hostUrl]

/-! ## Construction is total and records parse failures -/

/-- C1: for every host URL, logging sink and credential reference the base
constructor yields an object, and whenever `parseProtocol` returned `false`
for the host URL that object answers `getErrorCode() == "E_INVALID_HOST_URL"`
and `getErrorMessage() == "Failed to parse protocol from host/service URL."`
right after construction. -/
theorem construction_total_and_records_parse_failure {TokenFile XrdSysError : Type}
    (pp : ProtocolParser) (h : String) (log : XrdSysError) (token : Option TokenFile) :
    ∃ r : HTTPRequest TokenFile XrdSysError,
      HTTPRequest.new pp h log token = r ∧
      ((pp h "").1 = false →
        r.getErrorCode = "E_INVALID_HOST_URL" ∧
        r.getErrorMessage = "Failed to parse protocol from host/service URL.") := by
  refine ⟨HTTPRequest.new pp h log token, rfl, ?_⟩
  intro hp
  rw [request_new_of_parse_false pp h log token hp]
  exact ⟨rfl, rfl⟩

/-- Witness for C1 at the host URL `"nourlatall"`, with a null and with a
non-null credential: the parser modelled from the spec rejects it and the
constructed object carries the error code and message. -/
theorem construction_total_and_records_parse_failure_witness :
    (parseProtocol "nourlatall" "").1 = false ∧
    (HTTPRequest.new parseProtocol "nourlatall" () (none : Option Unit)).getErrorCode
      = "E_INVALID_HOST_URL" ∧
    (HTTPRequest.new parseProtocol "nourlatall" () (none : Option Unit)).getErrorMessage
      = "Failed to parse protocol from host/service URL." ∧
    (HTTPRequest.new parseProtocol "nourlatall" () (some ())).getErrorCode
      = "E_INVALID_HOST_URL" := by
  obtain ⟨r, hr, himp⟩ :=
    construction_total_and_records_parse_failure parseProtocol "nourlatall" ()
      (none : Option Unit)
  obtain ⟨r2, hr2, himp2⟩ :=
    construction_total_and_records_parse_failure parseProtocol "nourlatall" ()
      (some ())
  subst hr
  subst hr2
  exact ⟨by decide, (himp (by decide)).1, (himp (by decide)).2, (himp2 (by decide)).1⟩

/-! ## The assembled URL -/

/-- Characters of the assembled URL: those of the host URL, one `/`, those of
the object key. -/
theorem joined_data (h o : String) :
    (h ++ "/" ++ o).data = h.data ++ '/' :: o.data := by
  simp [String.data_append]

/-- No leading `/` exactly when the first character, if any, is not `/`. -/
theorem leadingSlashes_eq_zero_iff (cs : List Char) :
    leadingSlashes cs = 0 ↔ cs.head? ≠ some '/' := by
  cases cs with
  | nil => simp [leadingSlashes]
  | cons c cs =>
    by_cases hc : c = '/'
    · simp [leadingSlashes, List.takeWhile_cons, hc]
    · simp [leadingSlashes, List.takeWhile_cons, hc]

/-- No trailing `/` exactly when the last character, if any, is not `/`. -/
theorem trailingSlashes_eq_zero_iff (cs : List Char) :
    trailingSlashes cs = 0 ↔ cs.getLast? ≠ some '/' := by
  simp [trailingSlashes, leadingSlashes_eq_zero_iff, List.head?_reverse]

/-- The run of `/` at the join of `h ++ "/" ++ o` is made of the trailing
slashes of `h`, the separator, and the leading slashes of `o`. -/
theorem slashesAtJoin_joined (h o : String) :
    slashesAtJoin (h ++ "/" ++ o) h.length =
      trailingSlashes h.data + 1 + leadingSlashes o.data := by
  have hlen : h.length = h.data.length := rfl
  simp only [slashesAtJoin, joined_data, hlen, List.take_left', List.drop_left']
  simp [leadingSlashes, List.takeWhile_cons]
  omega

/-- C2: for every host URL `h` and object key `o` (valid or not, under any
parser, logging sink and credential) the URL stored by the constructors of
`HTTPUpload`, `HTTPDownload` and `HTTPHead` is `h + "/" + o`, and the three
variants store the same URL. -/
theorem variants_url_is_host_slash_object {TokenFile XrdSysError : Type}
    (pp : ProtocolParser) (h o : String) (log : XrdSysError) (token : Option TokenFile) :
    (HTTPUpload.new pp h o log token).hostUrl = h ++ "/" ++ o ∧
    (HTTPDownload.new pp h o log token).hostUrl = h ++ "/" ++ o ∧
    (HTTPHead.new pp h o log token).hostUrl = h ++ "/" ++ o ∧
    (HTTPUpload.new pp h o log token).hostUrl =
      (HTTPDownload.new pp h o log token).hostUrl ∧
    (HTTPDownload.new pp h o log token).hostUrl =
      (HTTPHead.new pp h o log token).hostUrl := by
  simp [upload_new_hostUrl, download_new_hostUrl, head_new_hostUrl]

/-- Counterexample to C3 as stated: with `h = "http://host/"` (accepted by the
parser) and `o = "/key"` each of the three constructors stores
`"http://host///key"`, not `"http://host/key"`, and the join holds three `/`
characters. -/
theorem normalization_law_fails :
    (parseProtocol "http://host/" "").1 = true ∧
    (HTTPUpload.new parseProtocol "http://host/" "/key" () (none : Option Unit)).hostUrl
      = "http://host///key" ∧
    (HTTPDownload.new parseProtocol "http://host/" "/key" () (none : Option Unit)).hostUrl
      = "http://host///key" ∧
    (HTTPHead.new parseProtocol "http://host/" "/key" () (none : Option Unit)).hostUrl
      = "http://host///key" ∧
    (HTTPUpload.new parseProtocol "http://host/" "/key" () (none : Option Unit)).hostUrl
      ≠ "http://host/key" ∧
    slashesAtJoin
      (HTTPUpload.new parseProtocol "http://host/" "/key" () (none : Option Unit)).hostUrl
      "http://host/".length = 3 := by
  decide

/-- C3 as amended: the three constructors store `h + "/" + o` verbatim, so the
run of `/` at the join is the trailing slashes of `h`, one separator and the
leading slashes of `o`; it is exactly one `/` if and only if `h` does not end
in `/` and `o` does not begin with `/`. -/
theorem join_has_one_slash_iff_inputs_have_none {TokenFile XrdSysError : Type}
    (pp : ProtocolParser) (h o : String) (log : XrdSysError) (token : Option TokenFile) :
    (HTTPUpload.new pp h o log token).hostUrl = h ++ "/" ++ o ∧
    (HTTPDownload.new pp h o log token).hostUrl = h ++ "/" ++ o ∧
    (HTTPHead.new pp h o log token).hostUrl = h ++ "/" ++ o ∧
    slashesAtJoin (HTTPUpload.new pp h o log token).hostUrl h.length =
      trailingSlashes h.data + 1 + leadingSlashes o.data ∧
    (slashesAtJoin (HTTPUpload.new pp h o log token).hostUrl h.length = 1 ↔
      h.data.getLast? ≠ some '/' ∧ o.data.head? ≠ some '/') := by
  refine ⟨upload_new_hostUrl pp h o log token, download_new_hostUrl pp h o log token,
    head_new_hostUrl pp h o log token, ?_, ?_⟩
  · rw [upload_new_hostUrl, slashesAtJoin_joined]
  · rw [upload_new_hostUrl, slashesAtJoin_joined,
      ← trailingSlashes_eq_zero_iff, ← leadingSlashes_eq_zero_iff]
    omega

/-- Witness for C3 as amended at `h = "http://host"`, `o = "key"`: neither
input has a slash at the join, the stored URL is `"http://host/key"` and the
join is a single `/`. -/
theorem join_has_one_slash_iff_inputs_have_none_witness :
    ("http://host".data.getLast? ≠ some '/' ∧ "key".data.head? ≠ some '/') ∧
    (HTTPUpload.new parseProtocol "http://host" "key" () (none : Option Unit)).hostUrl
      = "http://host/key" ∧
    slashesAtJoin
      (HTTPUpload.new parseProtocol "http://host" "key" () (none : Option Unit)).hostUrl
      "http://host".length = 1 :=
  ⟨by decide, by decide,
    (join_has_one_slash_iff_inputs_have_none parseProtocol "http://host" "key" ()
      (none : Option Unit)).2.2.2.2.mpr (by decide)⟩

/-- C4: a request constructed with a null credential (base class or any of the
three variants) has `requiresSignature == false`, an empty header map and an
empty query-parameter map. -/
theorem anonymous_credential_no_signature {TokenFile XrdSysError : Type}
    (pp : ProtocolParser) (h o : String) (log : XrdSysError) :
    ((HTTPRequest.new pp h log (none : Option TokenFile)).requiresSignature = false ∧
      (HTTPRequest.new pp h log (none : Option TokenFile)).headers = [] ∧
      (HTTPRequest.new pp h log (none : Option TokenFile)).query_parameters = []) ∧
    ((HTTPUpload.new pp h o log (none : Option TokenFile)).requiresSignature = false ∧
      (HTTPUpload.new pp h o log (none : Option TokenFile)).headers = [] ∧
      (HTTPUpload.new pp h o log (none : Option TokenFile)).query_parameters = []) ∧
    ((HTTPDownload.new pp h o log (none : Option TokenFile)).requiresSignature = false ∧
      (HTTPDownload.new pp h o log (none : Option TokenFile)).headers = [] ∧
      (HTTPDownload.new pp h o log (none : Option TokenFile)).query_parameters = []) ∧
    ((HTTPHead.new pp h o log (none : Option TokenFile)).requiresSignature = false ∧
      (HTTPHead.new pp h o log (none : Option TokenFile)).headers = [] ∧
      (HTTPHead.new pp h o log (none : Option TokenFile)).query_parameters = []) := by
  rw [upload_new_base, download_new_base,
    head_new_base]
  cases hp : (pp h "").1
  · rw [request_new_of_parse_false pp h log none hp]
    simp [HTTPRequest.init]
  · rw [request_new_of_parse_true pp h log none hp]
    simp [HTTPRequest.init]

/-- C5: whatever the host URL, object key, logging sink and credential, and
whether or not the parser accepted the host URL, a newly constructed
`HTTPRequest`, `HTTPUpload`, `HTTPDownload` or `HTTPHead` has expected response
code 200. -/
theorem expected_response_code_default {TokenFile XrdSysError : Type}
    (pp : ProtocolParser) (h o : String) (log : XrdSysError) (token : Option TokenFile) :
    (HTTPRequest.new pp h log token).expectedResponseCode = 200 ∧
    (HTTPUpload.new pp h o log token).expectedResponseCode = 200 ∧
    (HTTPDownload.new pp h o log token).expectedResponseCode = 200 ∧
    (HTTPHead.new pp h o log token).expectedResponseCode = 200 := by
  rw [upload_new_base, download_new_base,
    head_new_base]
  cases hp : (pp h "").1
  · rw [request_new_of_parse_false pp h log token hp]
    simp [HTTPRequest.init]
  · rw [request_new_of_parse_true pp h log token hp]
    simp [HTTPRequest.init]

/-- C6: on every `HTTPRequest`, `HTTPUpload`, `HTTPDownload` and `HTTPHead`
object, in any state and in particular right after construction with a null or
a non-null credential, `getAccessKey()` and `getSecretKey()` return the null
pointer. -/
theorem key_accessors_return_null {TokenFile XrdSysError : Type}
    (r : HTTPRequest TokenFile XrdSysError) (u : HTTPUpload TokenFile XrdSysError)
    (d : HTTPDownload TokenFile XrdSysError) (hd : HTTPHead TokenFile XrdSysError)
    (pp : ProtocolParser) (h o : String) (log : XrdSysError) (token : Option TokenFile) :
    (r.getAccessKey = none ∧ r.getSecretKey = none) ∧
    (u.getAccessKey = none ∧ u.getSecretKey = none) ∧
    (d.getAccessKey = none ∧ d.getSecretKey = none) ∧
    (hd.getAccessKey = none ∧ hd.getSecretKey = none) ∧
    ((HTTPRequest.new pp h log token).getAccessKey = none ∧
      (HTTPRequest.new pp h log token).getSecretKey = none) ∧
    ((HTTPUpload.new pp h o log token).getAccessKey = none ∧
      (HTTPUpload.new pp h o log token).getSecretKey = none) ∧
    ((HTTPDownload.new pp h o log token).getAccessKey = none ∧
      (HTTPDownload.new pp h o log token).getSecretKey = none) ∧
    ((HTTPHead.new pp h o log token).getAccessKey = none ∧
      (HTTPHead.new pp h o log token).getSecretKey = none) :=
  ⟨⟨rfl, rfl⟩, ⟨rfl, rfl⟩, ⟨rfl, rfl⟩, ⟨rfl, rfl⟩, ⟨rfl, rfl⟩, ⟨rfl, rfl⟩, ⟨rfl, rfl⟩,
    ⟨rfl, rfl⟩⟩

/-- C7: after construction `getErrorCode() == "E_INVALID_HOST_URL"` holds if
and only if `parseProtocol` returned `false` for the host URL, and when it
returned `true` both `getErrorCode()` and `getErrorMessage()` are the empty
string. -/
theorem error_code_iff_parse_failed {TokenFile XrdSysError : Type}
    (pp : ProtocolParser) (h : String) (log : XrdSysError) (token : Option TokenFile) :
    ((HTTPRequest.new pp h log token).getErrorCode = "E_INVALID_HOST_URL" ↔
      (pp h "").1 = false) ∧
    ((pp h "").1 = true →
      (HTTPRequest.new pp h log token).getErrorCode = "" ∧
      (HTTPRequest.new pp h log token).getErrorMessage = "") := by
  cases hp : (pp h "").1
  · rw [request_new_of_parse_false pp h log token hp]
    simp [HTTPRequest.getErrorCode]
  · rw [request_new_of_parse_true pp h log token hp]
    refine ⟨?_, fun _ => ⟨rfl, rfl⟩⟩
    simp only [HTTPRequest.getErrorCode, HTTPRequest.init]
    decide

/-- Witness for C7: `"https://host/base"` is accepted by the parser modelled
from the spec and leaves both error strings empty; `"nourlatall"` is rejected
and carries the error code. -/
theorem error_code_iff_parse_failed_witness :
    (parseProtocol "https://host/base" "").1 = true ∧
    ((HTTPRequest.new parseProtocol "https://host/base" () (some ())).getErrorCode = "" ∧
      (HTTPRequest.new parseProtocol "https://host/base" () (some ())).getErrorMessage = "") ∧
    (parseProtocol "nourlatall" "").1 = false ∧
    (HTTPRequest.new parseProtocol "nourlatall" () (some ())).getErrorCode
      = "E_INVALID_HOST_URL" :=
  ⟨by decide,
    (error_code_iff_parse_failed parseProtocol "https://host/base" () (some ())).2 (by decide),
    by decide,
    (error_code_iff_parse_failed parseProtocol "nourlatall" () (some ())).1.mpr (by decide)⟩

/-- C8: when `parseProtocol` returns `false` at construction the object has the
error code and message set and every other member as the member-initialiser
list and the in-class defaults left it: response code 0, empty result string,
expected response code 200, `requiresSignature` and `includeResponseHeader`
false, verb `"POST"`, empty header and query-parameter maps, no callback
payload, `signatureTime` untouched, `hostUrl` the host URL given, the logging
sink and credential as given, and `protocol` whatever the parser wrote into
its output argument. The whole object is the initial one with `protocol`,
`errorCode` and `errorMessage` replaced, so against a construction on the same
host URL whose parser returned `true` and wrote the same protocol it differs
in `errorCode` and `errorMessage` only; against a successful construction on
another host URL `h2` under the same parser it differs, besides those two, only
in the host URL and the parser-written protocol. -/
theorem parse_failure_frame {TokenFile XrdSysError : Type}
    (pp : ProtocolParser) (h : String) (log : XrdSysError) (token : Option TokenFile)
    (hp : (pp h "").1 = false) :
    (HTTPRequest.new pp h log token).getErrorCode = "E_INVALID_HOST_URL" ∧
    (HTTPRequest.new pp h log token).getErrorMessage =
      "Failed to parse protocol from host/service URL." ∧
    (HTTPRequest.new pp h log token).getResponseCode = 0 ∧
    (HTTPRequest.new pp h log token).getResultString = "" ∧
    (HTTPRequest.new pp h log token).expectedResponseCode = 200 ∧
    (HTTPRequest.new pp h log token).requiresSignature = false ∧
    (HTTPRequest.new pp h log token).includeResponseHeader = false ∧
    (HTTPRequest.new pp h log token).httpVerb = "POST" ∧
    (HTTPRequest.new pp h log token).headers = [] ∧
    (HTTPRequest.new pp h log token).query_parameters = [] ∧
    (HTTPRequest.new pp h log token).callback_payload = none ∧
    (∀ h2 : String, (pp h2 "").1 = true →
      { HTTPRequest.new pp h log token with
        errorCode := ""
        errorMessage := ""
        hostUrl := h2
        protocol := (pp h2 "").2 } = HTTPRequest.new pp h2 log token) ∧
    (HTTPRequest.new pp h log token).hostUrl = h ∧
    (HTTPRequest.new pp h log token).protocol = (pp h "").2 ∧
    (HTTPRequest.new pp h log token).signatureTime = none ∧
    (HTTPRequest.new pp h log token).m_log = log ∧
    (HTTPRequest.new pp h log token).m_token = token ∧
    HTTPRequest.new pp h log token =
      { HTTPRequest.init h log token with
        protocol := (pp h "").2
        errorCode := "E_INVALID_HOST_URL"
        errorMessage := "Failed to parse protocol from host/service URL." } ∧
    (∀ pp2 : ProtocolParser, (pp2 h "").1 = true → (pp2 h "").2 = (pp h "").2 →
      { HTTPRequest.new pp h log token with
        errorCode := ""
        errorMessage := "" } = HTTPRequest.new pp2 h log token) := by
  rw [request_new_of_parse_false pp h log token hp]
  refine ⟨rfl, rfl, rfl, rfl, rfl, rfl, rfl, rfl, rfl, rfl, rfl, ?_, rfl, rfl, rfl, rfl, rfl,
    rfl, ?_⟩
  · intro h2 hp2
    rw [request_new_of_parse_true pp h2 log token hp2]
    rfl
  · intro pp2 hp2 hproto
    rw [request_new_of_parse_true pp2 h log token hp2, hproto]
    rfl

/-- Witness for C8 at the host URL `"nourlatall"`, which the parser modelled
from the spec rejects: the stored host URL is `"nourlatall"`, the protocol is
still empty, and clearing the two error strings gives the object built on the
same host URL by a parser that accepts everything and leaves `protocol`
alone; compared with `"https://host/base"`, which the modelled parser
accepts. -/
theorem parse_failure_frame_witness :
    (parseProtocol "nourlatall" "").1 = false ∧
    (parseProtocol "https://host/base" "").1 = true ∧
    (HTTPRequest.new parseProtocol "nourlatall" () (none : Option Unit)).getErrorCode
      = "E_INVALID_HOST_URL" ∧
    (HTTPRequest.new parseProtocol "nourlatall" () (none : Option Unit)).getResponseCode = 0 ∧
    (HTTPRequest.new parseProtocol "nourlatall" () (none : Option Unit)).httpVerb = "POST" ∧
    { HTTPRequest.new parseProtocol "nourlatall" () (none : Option Unit) with
      errorCode := ""
      errorMessage := ""
      hostUrl := "https://host/base"
      protocol := (parseProtocol "https://host/base" "").2 } =
      HTTPRequest.new parseProtocol "https://host/base" () (none : Option Unit) ∧
    (HTTPRequest.new parseProtocol "nourlatall" () (none : Option Unit)).hostUrl
      = "nourlatall" ∧
    (HTTPRequest.new parseProtocol "nourlatall" () (none : Option Unit)).protocol = "" ∧
    { HTTPRequest.new parseProtocol "nourlatall" () (none : Option Unit) with
      errorCode := ""
      errorMessage := "" } =
      HTTPRequest.new (fun _ p => (true, p)) "nourlatall" () (none : Option Unit) :=
  have w := parse_failure_frame parseProtocol "nourlatall" () (none : Option Unit) (by decide)
  ⟨by decide, by decide, w.1, w.2.2.1, w.2.2.2.2.2.2.2.1,
    w.2.2.2.2.2.2.2.2.2.2.2.1 "https://host/base" (by decide),
    w.2.2.2.2.2.2.2.2.2.2.2.2.1,
    w.2.2.2.2.2.2.2.2.2.2.2.2.2.1,
    w.2.2.2.2.2.2.2.2.2.2.2.2.2.2.2.2.2.2 (fun _ p => (true, p)) rfl (by decide)⟩

/-- C9: in `HTTPUpload`, `HTTPDownload` and `HTTPHead` the parser sees the bare
host URL `h`, so for any two object keys `o1`, `o2` the constructed objects
have the same protocol, error code and error message (those of the base
construction on `h`), and the stored URL is `h + "/" + o`, also when the parse
failed. -/
theorem object_key_cannot_influence_parse {TokenFile XrdSysError : Type}
    (pp : ProtocolParser) (h o1 o2 : String) (log : XrdSysError) (token : Option TokenFile) :
    ((HTTPUpload.new pp h o1 log token).protocol = (HTTPUpload.new pp h o2 log token).protocol ∧
      (HTTPUpload.new pp h o1 log token).errorCode = (HTTPUpload.new pp h o2 log token).errorCode ∧
      (HTTPUpload.new pp h o1 log token).errorMessage =
        (HTTPUpload.new pp h o2 log token).errorMessage) ∧
    ((HTTPDownload.new pp h o1 log token).protocol =
        (HTTPDownload.new pp h o2 log token).protocol ∧
      (HTTPDownload.new pp h o1 log token).errorCode =
        (HTTPDownload.new pp h o2 log token).errorCode ∧
      (HTTPDownload.new pp h o1 log token).errorMessage =
        (HTTPDownload.new pp h o2 log token).errorMessage) ∧
    ((HTTPHead.new pp h o1 log token).protocol = (HTTPHead.new pp h o2 log token).protocol ∧
      (HTTPHead.new pp h o1 log token).errorCode = (HTTPHead.new pp h o2 log token).errorCode ∧
      (HTTPHead.new pp h o1 log token).errorMessage =
        (HTTPHead.new pp h o2 log token).errorMessage) ∧
    ((HTTPUpload.new pp h o1 log token).protocol = (pp h "").2 ∧
      (HTTPDownload.new pp h o1 log token).protocol = (pp h "").2 ∧
      (HTTPHead.new pp h o1 log token).protocol = (pp h "").2) ∧
    ((HTTPUpload.new pp h o1 log token).errorCode = (HTTPRequest.new pp h log token).errorCode ∧
      (HTTPDownload.new pp h o1 log token).errorCode =
        (HTTPRequest.new pp h log token).errorCode ∧
      (HTTPHead.new pp h o1 log token).errorCode = (HTTPRequest.new pp h log token).errorCode) ∧
    ((HTTPUpload.new pp h o1 log token).hostUrl = h ++ "/" ++ o1 ∧
      (HTTPDownload.new pp h o1 log token).hostUrl = h ++ "/" ++ o1 ∧
      (HTTPHead.new pp h o1 log token).hostUrl = h ++ "/" ++ o1) ∧
    ((pp h "").1 = false →
      ((HTTPUpload.new pp h o1 log token).errorCode = "E_INVALID_HOST_URL" ∧
        (HTTPUpload.new pp h o1 log token).hostUrl = h ++ "/" ++ o1) ∧
      ((HTTPDownload.new pp h o1 log token).errorCode = "E_INVALID_HOST_URL" ∧
        (HTTPDownload.new pp h o1 log token).hostUrl = h ++ "/" ++ o1) ∧
      ((HTTPHead.new pp h o1 log token).errorCode = "E_INVALID_HOST_URL" ∧
        (HTTPHead.new pp h o1 log token).hostUrl = h ++ "/" ++ o1)) := by
  simp only [upload_new_base, download_new_base,
    head_new_base]
  cases hp : (pp h "").1
  · rw [request_new_of_parse_false pp h log token hp]
    simp
  · rw [request_new_of_parse_true pp h log token hp]
    simp

/-- Witness for C9 at the rejected host URL `"nourlatall"` with object key
`"a/b"`: the error code is recorded and the stored URL is still
`"nourlatall/a/b"`. -/
theorem object_key_cannot_influence_parse_witness :
    (parseProtocol "nourlatall" "").1 = false ∧
    ((HTTPUpload.new parseProtocol "nourlatall" "a/b" () (none : Option Unit)).errorCode
        = "E_INVALID_HOST_URL" ∧
      (HTTPUpload.new parseProtocol "nourlatall" "a/b" () (none : Option Unit)).hostUrl
        = "nourlatall" ++ "/" ++ "a/b") ∧
    (HTTPUpload.new parseProtocol "nourlatall" "a/b" () (none : Option Unit)).hostUrl
      = "nourlatall/a/b" :=
  ⟨by decide,
    ((object_key_cannot_influence_parse parseProtocol "nourlatall" "a/b" "c" ()
      (none : Option Unit)).2.2.2.2.2.2 (by decide)).1,
    by decide⟩

end XrootdS3Http
